import Mathlib

/-!
Shallow embedding of the Stock AI Assistant frontend's stateful logic.

Chat side (hook `useChat` plus the `ChatInterface` / `ChatInput` components):
the session owns an ordered message log, a rolling chat history, an
in-flight flag and a last-error slot.  `sendMessage` is modelled as a pure
state transformer parametrised by the clock values the two `Date.now()`
calls observe and by the outcome of the single backend request.

Dashboard side (`Dashboard.fetchDashboardData`): the refresh routine is
compiled into a list of atomic state-setter actions (one per `setX` call in
the source, in program order); running a refresh is folding those actions
over the state, and interleavings of overlapping refreshes are expressed as
interleavings of their action lists.
-/

/-! ## Chat data model (useChat) -/

/-- Message role: `type` field of a message in `useChat` is one of the string
tags `'user'`, `'assistant'`, `'error'`. -/
inductive MsgType where
  | user
  | assistant
  | error
  deriving DecidableEq, Repr

/-- Backend response of `POST /chat` as consumed by `useChat.sendMessage`. -/
structure ChatResponse where
  response : String
  ticker : Option String := none
  signal : Option String := none
  confidence : Option ℚ := none
  sources : Option (List String) := none
  timestamp : String := ""
  intent : Option String := none
  handler : Option String := none
  context_retrieved : Option Bool := none
  deriving DecidableEq, Repr

/-- A message as built by `useChat.sendMessage` (id from `Date.now()`,
role tag, content, and the optional assistant annotations). -/
structure Message where
  id : Nat
  type : MsgType
  content : String
  ticker : Option String := none
  signal : Option String := none
  confidence : Option ℚ := none
  sources : List String := []
  timestamp : String := ""
  intent : Option String := none
  handler : Option String := none
  contextRetrieved : Option Bool := none
  deriving DecidableEq, Repr

/-- One `{role, content}` entry of the `chatHistory` array. -/
structure HistoryEntry where
  role : String
  content : String
  deriving DecidableEq, Repr

/-- State owned by the `useChat` hook: `messages`, `isLoading`, `error`,
`chatHistory`. -/
structure ChatState where
  messages : List Message
  isLoading : Bool
  error : Option String
  chatHistory : List HistoryEntry
  deriving DecidableEq, Repr

/-- Initial hook state: `useState([])`, `useState(false)`, `useState(null)`,
`useState([])`. -/
def initialChatState : ChatState :=
  { messages := [], isLoading := false, error := none, chatHistory := [] }

/-- The fixed user-facing text of the error bubble appended on a failed
send (`useChat.sendMessage`, catch branch). -/
def errorBubbleText : String :=
  "Sorry, I encountered an error processing your request. Please try again."

/-- `useChat.sendMessage(query, ticker, structured)` as a state transformer.
`tSend` is the value `Date.now()` observes when the user message is built;
`tResp` is the value it observes when the response (or failure) arrives;
`outcome` is the settled result of the one `sendChatMessage` request.
Returns the post-state together with the value the returned promise settles
with: `.ok aiMessage` on success, `.error err` on failure (the `catch`
branch re-throws `err` after appending the error bubble). -/
def sendMessage (s : ChatState) (query : String) (tSend tResp : Nat)
    (outcome : Except String ChatResponse) : ChatState × Except String Message :=
  let userMessage : Message :=
    { id := tSend, type := .user, content := query, timestamp := toString tSend }
  let s1 : ChatState :=
    { s with messages := s.messages ++ [userMessage], isLoading := true, error := none }
  match outcome with
  | .ok response =>
      let aiMessage : Message :=
        { id := tResp + 1, type := .assistant, content := response.response,
          ticker := response.ticker, signal := response.signal,
          confidence := response.confidence, sources := response.sources.getD [],
          timestamp := response.timestamp, intent := response.intent,
          handler := response.handler, contextRetrieved := response.context_retrieved }
      let s2 : ChatState :=
        { s1 with
          messages := s1.messages ++ [aiMessage],
          chatHistory := s1.chatHistory ++
            [⟨"user", query⟩, ⟨"assistant", response.response⟩],
          isLoading := false }
      (s2, .ok aiMessage)
  | .error err =>
      let errorMessage : Message :=
        { id := tResp + 1, type := .error, content := errorBubbleText,
          timestamp := toString tResp }
      let s2 : ChatState :=
        { s1 with
          messages := s1.messages ++ [errorMessage],
          error := some err,
          isLoading := false }
      (s2, .error err)

/-- One sequential `sendMessage` call: query text, the two clock readings,
and the settled outcome of its backend request. -/
structure ChatCall where
  query : String
  tSend : Nat
  tResp : Nat
  outcome : Except String ChatResponse
  deriving Repr

/-- Run one call for its state effect (the caller awaited the promise, so the
next call starts from this state). -/
def sendCall (s : ChatState) (c : ChatCall) : ChatState :=
  (sendMessage s c.query c.tSend c.tResp c.outcome).1

/-- Run a strictly sequential list of `sendMessage` calls (each awaited
before the next). -/
def runCalls (s : ChatState) (calls : List ChatCall) : ChatState :=
  calls.foldl sendCall s

/-- The ids of the message log, in append order. -/
def msgIds (s : ChatState) : List Nat := s.messages.map Message.id

/-- The ids a sequence of calls makes `sendMessage` allocate, in append
order: `Date.now()` at send for the user message, `Date.now() + 1` at
response for the assistant-or-error message. -/
def genIds : List ChatCall → List Nat
  | [] => []
  | c :: cs => c.tSend :: (c.tResp + 1) :: genIds cs

/-- Clock discipline under which the `Date.now()`-based ids behave: starting
from lower bound `t`, each call observes `t ≤ tSend ≤ tResp` and the next
call only starts once the clock has advanced at least 2 ms past this call's
response time. -/
def wellTimedB : Nat → List ChatCall → Bool
  | _, [] => true
  | t, c :: cs => (t ≤ c.tSend && c.tSend ≤ c.tResp) && wellTimedB (c.tResp + 2) cs

/-! ## Interface layer: ChatInterface + ChatInput -/

/-- Body of the one `POST /chat` request issued by `sendChatMessage(query,
ticker, chatHistory, structured)`. -/
structure ChatRequest where
  query : String
  ticker : Option String
  chat_history : List HistoryEntry
  structured : Bool
  deriving DecidableEq, Repr

/-- State of the `ChatInterface` component together with its `ChatInput`
child: the hook state, `currentTicker` (seeded from the `initialTicker`
prop), `lastSources`, the immutable `initialTicker` prop itself, and the
text sitting in the input box (`ChatInput`'s `message` state). -/
structure SessionState where
  chat : ChatState
  currentTicker : Option String
  lastSources : List String
  initialTicker : Option String
  input : String
  deriving DecidableEq, Repr

/-- `ChatInterface` at mount: hook state fresh, `currentTicker` set to the
`initialTicker` prop, empty sources, empty input box. -/
def initialSessionState (initialTicker : Option String) : SessionState :=
  { chat := initialChatState, currentTicker := initialTicker,
    lastSources := [], initialTicker := initialTicker, input := "" }

/-- `ChatInterface.handleSendMessage(message)`: awaits
`sendMessage(message, currentTicker)` and, on success, adopts the
response's ticker when it is truthy and differs from `currentTicker`; a
failure is caught and logged, so nothing escapes.  Also returns the body of
the request `useChat.sendMessage` issued (query, the ticker argument it was
given, the captured `chatHistory`, `structured = false`). -/
def handleSendMessage (st : SessionState) (message : String) (tS tR : Nat)
    (outcome : Except String ChatResponse) : SessionState × ChatRequest :=
  let req : ChatRequest :=
    { query := message, ticker := st.currentTicker,
      chat_history := st.chat.chatHistory, structured := false }
  let r := sendMessage st.chat message tS tR outcome
  let st1 : SessionState := { st with chat := r.1 }
  match r.2 with
  | .ok ai =>
      match ai.ticker with
      | some tk =>
          if tk ≠ "" ∧ some tk ≠ st.currentTicker then
            ({ st1 with currentTicker := some tk }, req)
          else (st1, req)
      | none => (st1, req)
  | .error _ => (st1, req)

/-- `ChatInput.handleSubmit`: only when the trimmed input is non-empty and
no request is in flight (`message.trim() && !isLoading`) does it forward
`message.trim()` to `onSend` and clear the box; otherwise nothing happens.
Returns the new state and the request that was issued, if any. -/
def handleSubmit (st : SessionState) (tS tR : Nat)
    (outcome : Except String ChatResponse) : SessionState × Option ChatRequest :=
  if st.input.trim ≠ "" ∧ st.chat.isLoading = false then
    let p := handleSendMessage st st.input.trim tS tR outcome
    ({ p.1 with input := "" }, some p.2)
  else (st, none)

/-- `ChatInterface.handleClearChat`: behind the `window.confirm` gate it
calls `clearMessages()` (which empties `messages`, `chatHistory` and
`error`), empties `lastSources`, and restores `currentTicker` to the
`initialTicker` prop. -/
def handleClearChat (st : SessionState) (confirm : Bool) : SessionState :=
  if confirm then
    { st with
      chat := { st.chat with messages := [], chatHistory := [], error := none },
      lastSources := [],
      currentTicker := st.initialTicker }
  else st

/-! ## Dashboard data model (Dashboard.fetchDashboardData) -/

/-- One per-ticker analysis entry of the overview response (only the fields
the dashboard logic reads; `ticker` drives the price fan-out and news). -/
structure Analysis where
  ticker : String
  signal : String
  deriving DecidableEq, Repr

/-- Response of `GET /analysis/dashboard/overview`. -/
structure Overview where
  analyses : List Analysis
  count : Nat
  timestamp : String
  deriving DecidableEq, Repr

/-- Response of `GET /prices/{ticker}/latest`. -/
structure Price where
  price : ℚ
  change : ℚ
  change_percent : ℚ
  deriving DecidableEq, Repr

/-- One item of `GET /news/{ticker}`. -/
structure NewsItem where
  id : Nat
  title : String
  url : String
  source : String
  ticker : String
  published_at : String
  deriving DecidableEq, Repr

/-- State owned by the `Dashboard` component: `dashboardData`, `prices`
(a ticker-keyed object, modelled as an association list), `news`,
`loading`, `error`. -/
structure DashState where
  dashboardData : Option Overview
  prices : List (String × Option Price)
  news : List NewsItem
  loading : Bool
  error : Option String
  deriving DecidableEq, Repr

/-- Initial component state: `useState(null)`, `useState({})`,
`useState([])`, `useState(true)`, `useState(null)`. -/
def initialDashState : DashState :=
  { dashboardData := none, prices := [], news := [], loading := true, error := none }

/-- One atomic state-setter call of `fetchDashboardData` (`setLoading`,
`setError`, `setDashboardData`, `setPrices`, `setNews`). -/
inductive DashAction where
  | setLoading (b : Bool)
  | setError (e : Option String)
  | setData (ov : Overview)
  | setPrices (p : List (String × Option Price))
  | setNews (n : List NewsItem)
  deriving DecidableEq, Repr

/-- Effect of one setter on the component state. -/
def applyAction (s : DashState) : DashAction → DashState
  | .setLoading b => { s with loading := b }
  | .setError e => { s with error := e }
  | .setData ov => { s with dashboardData := some ov }
  | .setPrices p => { s with prices := p }
  | .setNews n => { s with news := n }

/-- Run a trace of setter actions in order.  A single refresh runs its own
actions consecutively; overlapping refreshes correspond to interleaved
traces (each `await` in the source is a point where another refresh's
actions may land in between). -/
def execActions (s : DashState) (l : List DashAction) : DashState :=
  l.foldl applyAction s

/-- The prices object built after `Promise.all`: one entry per analysis, in
order, holding the per-ticker fetch result — `none` models the
`catch { return { ticker, price: null } }` branch of a failed price fetch. -/
def buildPricesMap (analyses : List Analysis) (priceFn : String → Option Price) :
    List (String × Option Price) :=
  analyses.map fun a => (a.ticker, priceFn a.ticker)

/-- The fixed user-facing error of a failed overview fetch. -/
def dashboardErrorText : String := "Failed to load dashboard data. Please try again."

/-- `fetchDashboardData` compiled to its setter trace, given the settled
outcomes of its requests: `setLoading(true)`, `setError(null)`, then on
overview success `setDashboardData`, and — only when `analyses` is
non-empty — `setPrices` with the fan-out results and `setNews` with the
news result (a failed news fetch is replaced by `[]`); on overview failure
just `setError`; in all cases `setLoading(false)` from the finally block. -/
def refreshActions (ovOutcome : Except String Overview)
    (priceFn : String → Option Price)
    (newsOutcome : Except String (List NewsItem)) : List DashAction :=
  [.setLoading true, .setError none] ++
    (match ovOutcome with
     | .error _ => [.setError (some dashboardErrorText)]
     | .ok ov =>
         [.setData ov] ++
           (if ov.analyses = [] then []
            else
              [.setPrices (buildPricesMap ov.analyses priceFn),
               .setNews (match newsOutcome with | .ok items => items | .error _ => [])])) ++
    [.setLoading false]

/-- Run one full refresh, uninterrupted, from state `s`. -/
def runRefresh (s : DashState) (ovOutcome : Except String Overview)
    (priceFn : String → Option Price)
    (newsOutcome : Except String (List NewsItem)) : DashState :=
  execActions s (refreshActions ovOutcome priceFn newsOutcome)

/-- Reading `prices[t]` the way the JSX does: a missing key and a stored
`null` both read as "no price". -/
def getPrice (s : DashState) (t : String) : Option Price :=
  match s.prices.lookup t with
  | some p => p
  | none => none

/-! ## Concrete dashboard scenarios -/

/-- Overview of a refresh cycle returning the single ticker AAPL. -/
def ovAAPL : Overview := { analyses := [⟨"AAPL", "BUY"⟩], count := 1, timestamp := "t1" }

/-- Overview of a later refresh cycle returning the single ticker TSLA. -/
def ovTSLA : Overview := { analyses := [⟨"TSLA", "SELL"⟩], count := 1, timestamp := "t2" }

/-- Overview of a later refresh cycle whose (filtered) analysis list is
empty. -/
def ovEmpty : Overview := { analyses := [], count := 0, timestamp := "t3" }

/-- Price table of the first refresh cycle. -/
def priceFn1 (t : String) : Option Price :=
  if t = "AAPL" then some { price := 100, change := 1, change_percent := 1 } else none

/-- Price table of the second refresh cycle. -/
def priceFn2 (t : String) : Option Price :=
  if t = "TSLA" then some { price := 200, change := 2, change_percent := 2 } else none

/-- News item of the first refresh cycle (for AAPL). -/
def newsA : NewsItem :=
  { id := 1, title := "Apple news", url := "u1", source := "s1",
    ticker := "AAPL", published_at := "p1" }

/-- News item of the second refresh cycle (for TSLA). -/
def newsT : NewsItem :=
  { id := 2, title := "Tesla news", url := "u2", source := "s2",
    ticker := "TSLA", published_at := "p2" }

/-- Setter trace of the first (stale) refresh. -/
def refresh1Acts : List DashAction := refreshActions (.ok ovAAPL) priceFn1 (.ok [newsA])

/-- Setter trace of the second (latest) refresh. -/
def refresh2Acts : List DashAction := refreshActions (.ok ovTSLA) priceFn2 (.ok [newsT])

/-- The raced trace: refresh 1 suspends after publishing its overview
(its first three setters), refresh 2 then runs to completion, and finally
refresh 1's price fan-out and news fetch complete and its remaining setters
land. -/
def racedTrace : List DashAction :=
  refresh1Acts.take 3 ++ refresh2Acts ++ refresh1Acts.drop 3

/-- Two sequential (non-overlapping) refreshes: first the AAPL cycle, then
a cycle whose filtered overview is empty. -/
def seqTraceEmptySecond : List DashAction :=
  refreshActions (.ok ovAAPL) priceFn1 (.ok [newsA]) ++
    refreshActions (.ok ovEmpty) priceFn2 (.ok [newsT])

/-- A price table for a three-ticker refresh in which the MSFT fetch
fails (resolves to a null price) while AAPL and GOOG succeed. -/
def priceFn3 (t : String) : Option Price :=
  if t = "AAPL" then some { price := 101, change := 1, change_percent := 1 }
  else if t = "GOOG" then some { price := 102, change := 2, change_percent := 2 }
  else none

/-! ## Formatting helpers (utils/helpers.js) -/

/-- JavaScript `Number.prototype.toFixed(2)` on an exact rational: the sign
of the value, then its absolute value rounded to the nearest hundredth
(ties away from zero) and rendered with exactly two decimal digits. -/
def jsToFixed2 (q : ℚ) : String :=
  let n : ℤ := ⌊|q| * 100 + 1 / 2⌋
  let nn : ℕ := n.toNat
  (if q < 0 then "-" else "") ++ toString (nn / 100) ++ "." ++
    (if nn % 100 < 10 then "0" ++ toString (nn % 100) else toString (nn % 100))

/-- `formatPercent(value)`: null/undefined renders as "N/A"; otherwise the
value with `toFixed(2)`, a leading `+` when it is non-negative, and a
trailing `%`. -/
def formatPercent (value : Option ℚ) : String :=
  match value with
  | none => "N/A"
  | some num => (if 0 ≤ num then "+" else "") ++ jsToFixed2 num ++ "%"

/-- `formatPrice(price)`: null/undefined renders as "N/A"; otherwise a `$`
followed by the value with `toFixed(2)`. -/
def formatPrice (price : Option ℚ) : String :=
  match price with
  | none => "N/A"
  | some p => "$" ++ jsToFixed2 p

/-- JS default number rendering (`num.toString()`) on an exact rational:
integral values render as their integer digits, matching JS for the whole
numbers this fallback branch receives. -/
def jsNumToString (q : ℚ) : String :=
  if q.den = 1 then toString q.num else toString q

/-- `formatNumber(num)`: null/undefined renders as "N/A"; values of at
least a billion / a million / a thousand are scaled, shown with
`toFixed(2)` and suffixed `B` / `M` / `K`; smaller values fall back to
`toString()`. -/
def formatNumber (num : Option ℚ) : String :=
  match num with
  | none => "N/A"
  | some n =>
      if (1000000000 : ℚ) ≤ n then jsToFixed2 (n / 1000000000) ++ "B"
      else if (1000000 : ℚ) ≤ n then jsToFixed2 (n / 1000000) ++ "M"
      else if (1000 : ℚ) ≤ n then jsToFixed2 (n / 1000) ++ "K"
      else jsNumToString n

/-- `isValidTicker(ticker)`: the falsy guard (empty string) plus the regex
test `^[A-Z]{1,5}$` — between 1 and 5 characters, all of them uppercase
ASCII letters. -/
def isValidTicker (ticker : String) : Bool :=
  if ticker = "" then false
  else (1 ≤ ticker.data.length && ticker.data.length ≤ 5)
    && ticker.data.all fun c => 'A' ≤ c && c ≤ 'Z'

/-! ## Basic per-call lemmas -/

theorem sendCall_messages (s : ChatState) (c : ChatCall) :
    ∃ m : Message,
      (sendCall s c).messages =
        s.messages ++
          [{ id := c.tSend, type := .user, content := c.query,
             timestamp := toString c.tSend }, m]
      ∧ (m.type = .assistant ∨ m.type = .error)
      ∧ m.id = c.tResp + 1 := by
  cases h : c.outcome with
  | ok r =>
      refine ⟨{ id := c.tResp + 1, type := .assistant, content := r.response,
                ticker := r.ticker, signal := r.signal, confidence := r.confidence,
                sources := r.sources.getD [], timestamp := r.timestamp,
                intent := r.intent, handler := r.handler,
                contextRetrieved := r.context_retrieved }, ?_, Or.inl rfl, rfl⟩
      simp [sendCall, sendMessage, h]
  | error e =>
      refine ⟨{ id := c.tResp + 1, type := .error, content := errorBubbleText,
                timestamp := toString c.tResp }, ?_, Or.inr rfl, rfl⟩
      simp [sendCall, sendMessage, h]

theorem sendCall_length (s : ChatState) (c : ChatCall) :
    (sendCall s c).messages.length = s.messages.length + 2 := by
  obtain ⟨m, hm, -, -⟩ := sendCall_messages s c
  simp [hm]

theorem sendCall_isLoading (s : ChatState) (c : ChatCall) :
    (sendCall s c).isLoading = false := by
  cases h : c.outcome <;> simp [sendCall, sendMessage, h]

theorem runCalls_length (s : ChatState) (calls : List ChatCall) :
    (runCalls s calls).messages.length = s.messages.length + 2 * calls.length := by
  induction calls generalizing s with
  | nil => simp [runCalls]
  | cons c cs ih =>
      have h := ih (sendCall s c)
      simp only [runCalls, List.foldl_cons] at h ⊢
      rw [h, sendCall_length]
      simp only [List.length_cons]
      ring

/-! ## Claim theorems: chat session -/

/-- C1: for every strictly sequential sequence of `sendMessage` calls, the
message log after the N-th call has length (initial + 2N); each call appends
exactly one user message followed by exactly one assistant-or-error message,
in call order; and in every case the pending flag (`isLoading`) is false
when the call returns control. -/
theorem sendMessage_appends_pair_and_resets_pending :
    (∀ (s : ChatState) (calls : List ChatCall),
        (runCalls s calls).messages.length = s.messages.length + 2 * calls.length)
    ∧ (∀ (s : ChatState) (c : ChatCall), ∃ m : Message,
        (sendCall s c).messages =
          s.messages ++
            [{ id := c.tSend, type := .user, content := c.query,
               timestamp := toString c.tSend }, m]
        ∧ (m.type = .assistant ∨ m.type = .error))
    ∧ (∀ (s : ChatState) (c : ChatCall), (sendCall s c).isLoading = false) := by
  refine ⟨runCalls_length, ?_, sendCall_isLoading⟩
  intro s c
  obtain ⟨m, hm, hty, -⟩ := sendCall_messages s c
  exact ⟨m, hm, hty⟩

/-- C3: after a successful turn, `chatHistory` equals the prior history
concatenated with exactly one `(user, query)` and one `(assistant, response)`
entry, in that order; after a failed turn, `chatHistory` is unchanged. -/
theorem chatHistory_success_appends_failure_unchanged :
    (∀ (s : ChatState) (query : String) (tS tR : Nat) (r : ChatResponse),
        (sendMessage s query tS tR (.ok r)).1.chatHistory =
          s.chatHistory ++ [⟨"user", query⟩, ⟨"assistant", r.response⟩])
    ∧ (∀ (s : ChatState) (query : String) (tS tR : Nat) (e : String),
        (sendMessage s query tS tR (.error e)).1.chatHistory = s.chatHistory) := by
  constructor
  · intro s query tS tR r
    simp [sendMessage]
  · intro s query tS tR e
    simp [sendMessage]

/-- C10: on a failed backend request, `sendMessage` appends a single error
message carrying the fixed user-facing text, records the raw failure detail
in the error state, and re-raises the original failure: the returned promise
settles with `.error err`, the same error it caught. -/
theorem sendMessage_failure_rethrows :
    ∀ (s : ChatState) (query : String) (tS tR : Nat) (e : String),
      (sendMessage s query tS tR (.error e)).2 = .error e
      ∧ (sendMessage s query tS tR (.error e)).1.messages =
          s.messages ++
            [{ id := tS, type := .user, content := query, timestamp := toString tS },
             { id := tR + 1, type := .error, content := errorBubbleText,
               timestamp := toString tR }]
      ∧ (sendMessage s query tS tR (.error e)).1.error = some e
      ∧ (sendMessage s query tS tR (.error e)).1.isLoading = false := by
  intro s query tS tR e
  refine ⟨rfl, ?_, rfl, rfl⟩
  simp [sendMessage]

/-- C2: while a request is pending, or when the input text is empty or
whitespace-only, submitting is a no-op: the whole session state (message
log, history summary, pending flag included) is unchanged and no request is
issued. -/
theorem submit_rejected_is_noop (st : SessionState) (tS tR : Nat)
    (outcome : Except String ChatResponse)
    (h : st.chat.isLoading = true ∨ st.input.trim = "") :
    handleSubmit st tS tR outcome = (st, none) := by
  rw [handleSubmit, if_neg]
  rcases h with h | h
  · rintro ⟨-, h2⟩
    rw [h] at h2
    cases h2
  · rintro ⟨h1, -⟩
    exact h1 h

/-- Witness for C2 at a concrete pending session. -/
theorem submit_rejected_is_noop_holds :
    handleSubmit
      { chat := { messages := [], isLoading := true, error := none, chatHistory := [] },
        currentTicker := none, lastSources := [], initialTicker := none,
        input := "hello" } 5 6 (.error "boom") =
      ({ chat := { messages := [], isLoading := true, error := none, chatHistory := [] },
         currentTicker := none, lastSources := [], initialTicker := none,
         input := "hello" }, none) :=
  submit_rejected_is_noop _ 5 6 (.error "boom") (Or.inl rfl)

/-- C7: a confirmed clear resets the message log, the history summary and
the error slot to empty, restores `currentTicker` to the session's
construction-time `initialTicker`, and is idempotent. -/
theorem clearMessages_resets_and_idempotent (st : SessionState) :
    (handleClearChat st true).chat.messages = []
    ∧ (handleClearChat st true).chat.chatHistory = []
    ∧ (handleClearChat st true).chat.error = none
    ∧ (handleClearChat st true).currentTicker = st.initialTicker
    ∧ handleClearChat (handleClearChat st true) true = handleClearChat st true := by
  refine ⟨rfl, rfl, rfl, rfl, ?_⟩
  simp [handleClearChat]

/-! ## Message-id allocation -/

theorem msgIds_sendCall (s : ChatState) (c : ChatCall) :
    msgIds (sendCall s c) = msgIds s ++ [c.tSend, c.tResp + 1] := by
  obtain ⟨m, hm, -, hid⟩ := sendCall_messages s c
  simp [msgIds, hm, hid]

theorem msgIds_runCalls (calls : List ChatCall) :
    ∀ s : ChatState, msgIds (runCalls s calls) = msgIds s ++ genIds calls := by
  induction calls with
  | nil => intro s; simp [runCalls, genIds]
  | cons c cs ih =>
      intro s
      simp only [runCalls, List.foldl_cons] at *
      rw [ih (sendCall s c), msgIds_sendCall, genIds]
      simp

theorem genIds_pairwise_lt (cs : List ChatCall) :
    ∀ t : Nat, wellTimedB t cs = true →
      (genIds cs).Pairwise (· < ·) ∧ ∀ i ∈ genIds cs, t ≤ i := by
  induction cs with
  | nil => intro t _; simp [genIds]
  | cons c cs ih =>
      intro t h
      simp only [wellTimedB, Bool.and_eq_true, decide_eq_true_eq] at h
      obtain ⟨⟨h1, h2⟩, h3⟩ := h
      obtain ⟨pw, lb⟩ := ih (c.tResp + 2) h3
      constructor
      · simp only [genIds, List.pairwise_cons, List.mem_cons]
        refine ⟨?_, ?_, pw⟩
        · rintro b (rfl | hb)
          · omega
          · have := lb b hb; omega
        · intro b hb
          have := lb b hb; omega
      · simp only [genIds, List.mem_cons]
        rintro i (rfl | rfl | hi)
        · omega
        · omega
        · have := lb i hi; omega

/-- C8 (amended): provided the clock readings are well-timed — within each
call `tSend ≤ tResp`, and each call starts at least 2 ms after the previous
call's response-time reading — all message ids in the log are pairwise
distinct and strictly increase in append order.  (The code takes ids from
`Date.now()`; without this clock-advance assumption ids can collide, see
`message_ids_collide_on_stalled_clock`.) -/
theorem message_ids_strictly_increasing (calls : List ChatCall)
    (h : wellTimedB 0 calls = true) :
    (msgIds (runCalls initialChatState calls)).Pairwise (· < ·)
    ∧ (msgIds (runCalls initialChatState calls)).Pairwise (· ≠ ·) := by
  have hpw := (genIds_pairwise_lt calls 0 h).1
  have heq : msgIds (runCalls initialChatState calls) = genIds calls := by
    rw [msgIds_runCalls]
    simp [msgIds, initialChatState]
  rw [heq]
  exact ⟨hpw, hpw.imp Nat.ne_of_lt⟩

/-- Witness for the amended C8 on a concrete well-timed two-call run. -/
theorem message_ids_strictly_increasing_holds :
    wellTimedB 0 [⟨"hi", 0, 0, .error "down"⟩, ⟨"again", 2, 3, .error "down"⟩] = true
    ∧ ((msgIds (runCalls initialChatState
          [⟨"hi", 0, 0, .error "down"⟩, ⟨"again", 2, 3, .error "down"⟩])).Pairwise (· < ·)
        ∧ (msgIds (runCalls initialChatState
          [⟨"hi", 0, 0, .error "down"⟩, ⟨"again", 2, 3, .error "down"⟩])).Pairwise (· ≠ ·)) :=
  ⟨by decide, message_ids_strictly_increasing _ (by decide)⟩

/-- C8 counterexample: with `Date.now()` stalled inside one millisecond
(send at 1000, failing response also at 1000, next call still at 1000), two
sequential calls yield the id list [1000, 1001, 1000, 1001]: the ids are
neither pairwise distinct nor strictly increasing. -/
theorem message_ids_collide_on_stalled_clock :
    msgIds (runCalls initialChatState
        [⟨"hello", 1000, 1000, .error "network error"⟩,
         ⟨"hello again", 1000, 1000, .error "network error"⟩]) =
      [1000, 1001, 1000, 1001]
    ∧ ¬ (msgIds (runCalls initialChatState
        [⟨"hello", 1000, 1000, .error "network error"⟩,
         ⟨"hello again", 1000, 1000, .error "network error"⟩])).Pairwise (· ≠ ·) := by
  have h : msgIds (runCalls initialChatState
      [⟨"hello", 1000, 1000, .error "network error"⟩,
       ⟨"hello again", 1000, 1000, .error "network error"⟩]) =
      [1000, 1001, 1000, 1001] := by
    rw [msgIds_runCalls]
    rfl
  refine ⟨h, ?_⟩
  rw [h]
  decide

/-! ## Dashboard claim theorems -/

/-- C6: for a refresh whose overview succeeds with three distinct tickers
A, B, C and whose price fetch fails for B while succeeding for A and C, the
published state has the A and C prices populated, no price for B, no error,
and loading cleared: a per-ticker price failure never fails the batch. -/
theorem price_failure_is_per_ticker (A B C sA sB sC : String)
    (hAB : A ≠ B) (hAC : A ≠ C) (hBC : B ≠ C)
    (pA pC : Price) (priceFn : String → Option Price)
    (hA : priceFn A = some pA) (hB : priceFn B = none) (hC : priceFn C = some pC)
    (newsOutcome : Except String (List NewsItem)) (s : DashState)
    (cnt : Nat) (ts : String) :
    getPrice (runRefresh s (.ok ⟨[⟨A, sA⟩, ⟨B, sB⟩, ⟨C, sC⟩], cnt, ts⟩)
        priceFn newsOutcome) A = some pA
    ∧ getPrice (runRefresh s (.ok ⟨[⟨A, sA⟩, ⟨B, sB⟩, ⟨C, sC⟩], cnt, ts⟩)
        priceFn newsOutcome) B = none
    ∧ getPrice (runRefresh s (.ok ⟨[⟨A, sA⟩, ⟨B, sB⟩, ⟨C, sC⟩], cnt, ts⟩)
        priceFn newsOutcome) C = some pC
    ∧ (runRefresh s (.ok ⟨[⟨A, sA⟩, ⟨B, sB⟩, ⟨C, sC⟩], cnt, ts⟩)
        priceFn newsOutcome).error = none
    ∧ (runRefresh s (.ok ⟨[⟨A, sA⟩, ⟨B, sB⟩, ⟨C, sC⟩], cnt, ts⟩)
        priceFn newsOutcome).loading = false := by
  have hBA : (B == A) = false := beq_eq_false_iff_ne.mpr (Ne.symm hAB)
  have hCA : (C == A) = false := beq_eq_false_iff_ne.mpr (Ne.symm hAC)
  have hCB : (C == B) = false := beq_eq_false_iff_ne.mpr (Ne.symm hBC)
  refine ⟨?_, ?_, ?_, ?_, ?_⟩ <;>
    simp [runRefresh, refreshActions, execActions, applyAction, buildPricesMap,
          getPrice, List.lookup, hA, hB, hC, hBA, hCA, hCB]

/-- Witness for C6 on the concrete tickers AAPL, MSFT, GOOG with the MSFT
price fetch failing. -/
theorem price_failure_is_per_ticker_holds :
    getPrice (runRefresh initialDashState
        (.ok ⟨[⟨"AAPL", "BUY"⟩, ⟨"MSFT", "HOLD"⟩, ⟨"GOOG", "BUY"⟩], 3, "ts"⟩)
        priceFn3 (.ok [])) "AAPL" =
      some { price := 101, change := 1, change_percent := 1 }
    ∧ getPrice (runRefresh initialDashState
        (.ok ⟨[⟨"AAPL", "BUY"⟩, ⟨"MSFT", "HOLD"⟩, ⟨"GOOG", "BUY"⟩], 3, "ts"⟩)
        priceFn3 (.ok [])) "MSFT" = none
    ∧ getPrice (runRefresh initialDashState
        (.ok ⟨[⟨"AAPL", "BUY"⟩, ⟨"MSFT", "HOLD"⟩, ⟨"GOOG", "BUY"⟩], 3, "ts"⟩)
        priceFn3 (.ok [])) "GOOG" =
      some { price := 102, change := 2, change_percent := 2 }
    ∧ (runRefresh initialDashState
        (.ok ⟨[⟨"AAPL", "BUY"⟩, ⟨"MSFT", "HOLD"⟩, ⟨"GOOG", "BUY"⟩], 3, "ts"⟩)
        priceFn3 (.ok [])).error = none
    ∧ (runRefresh initialDashState
        (.ok ⟨[⟨"AAPL", "BUY"⟩, ⟨"MSFT", "HOLD"⟩, ⟨"GOOG", "BUY"⟩], 3, "ts"⟩)
        priceFn3 (.ok [])).loading = false :=
  price_failure_is_per_ticker "AAPL" "MSFT" "GOOG" "BUY" "HOLD" "BUY"
    (by decide) (by decide) (by decide)
    { price := 101, change := 1, change_percent := 1 }
    { price := 102, change := 2, change_percent := 2 }
    priceFn3 (by decide) (by decide) (by decide) (.ok []) initialDashState 3 "ts"

/-- C4: the code has no stale-response suppression.  In the raced trace,
refresh 1 (overview AAPL) suspends after publishing its overview, refresh 2
(overview TSLA) runs to completion and publishes its snapshot — TSLA prices
and Tesla news — and then refresh 1's price fan-out and news fetch complete:
its setters overwrite the published snapshot, leaving refresh 2's overview
combined with refresh 1's prices and news. -/
theorem stale_refresh_overwrites_snapshot :
    (execActions initialDashState (refresh1Acts.take 3 ++ refresh2Acts)).prices =
        [("TSLA", some { price := 200, change := 2, change_percent := 2 })]
    ∧ (execActions initialDashState (refresh1Acts.take 3 ++ refresh2Acts)).news = [newsT]
    ∧ (execActions initialDashState racedTrace).loading = false
    ∧ (execActions initialDashState racedTrace).dashboardData = some ovTSLA
    ∧ (execActions initialDashState racedTrace).prices =
        [("AAPL", some { price := 100, change := 1, change_percent := 1 })]
    ∧ (execActions initialDashState racedTrace).news = [newsA] := by
  refine ⟨?_, ?_, ?_, ?_, ?_, ?_⟩ <;> rfl

/-- C5 counterexample: two sequential refreshes, the second of which
returns an empty (filtered) analysis list.  The second refresh publishes
(loading = false, its own overview) but the news and prices of the first
cycle persist: the published state mixes data from two refresh cycles. -/
theorem snapshot_mixes_cycles_on_empty_overview :
    (execActions initialDashState seqTraceEmptySecond).loading = false
    ∧ (execActions initialDashState seqTraceEmptySecond).error = none
    ∧ (execActions initialDashState seqTraceEmptySecond).dashboardData = some ovEmpty
    ∧ (execActions initialDashState seqTraceEmptySecond).news = [newsA]
    ∧ (execActions initialDashState seqTraceEmptySecond).prices =
        [("AAPL", some { price := 100, change := 1, change_percent := 1 })] := by
  refine ⟨?_, ?_, ?_, ?_, ?_⟩ <;> rfl

/-- C5 (amended): for a refresh that runs without interleaving and whose
overview returns a non-empty analysis list, every intermediate state keeps
`loading = true` — so an observer of the rendered state sees only the
loading view until the refresh finishes — and the final published state
carries exactly this refresh's overview, its complete price fan-out map and
its news result (or the empty-news fallback), with loading cleared and no
error.  (When the analysis list is empty the code skips the price and news
setters and the previous cycle's values leak through, as
`snapshot_mixes_cycles_on_empty_overview` shows.) -/
theorem refresh_publishes_atomically (s : DashState) (ov : Overview)
    (priceFn : String → Option Price) (newsOutcome : Except String (List NewsItem))
    (h : ov.analyses ≠ []) :
    (∀ k : Nat, 0 < k → k < (refreshActions (.ok ov) priceFn newsOutcome).length →
        (execActions s ((refreshActions (.ok ov) priceFn newsOutcome).take k)).loading
          = true)
    ∧ runRefresh s (.ok ov) priceFn newsOutcome =
        { dashboardData := some ov,
          prices := buildPricesMap ov.analyses priceFn,
          news := match newsOutcome with | .ok items => items | .error _ => [],
          loading := false,
          error := none } := by
  have hacts : refreshActions (.ok ov) priceFn newsOutcome =
      [.setLoading true, .setError none, .setData ov,
       .setPrices (buildPricesMap ov.analyses priceFn),
       .setNews (match newsOutcome with | .ok items => items | .error _ => []),
       .setLoading false] := by
    simp [refreshActions, h]
  constructor
  · intro k hk0 hklen
    rw [hacts] at hklen ⊢
    simp only [List.length_cons, List.length_nil] at hklen
    interval_cases k <;> rfl
  · rw [runRefresh, hacts]
    rfl

/-- Witness for the amended C5 on the concrete AAPL refresh cycle. -/
theorem refresh_publishes_atomically_holds :
    (∀ k : Nat, 0 < k → k < (refreshActions (.ok ovAAPL) priceFn1 (.ok [newsA])).length →
        (execActions initialDashState
          ((refreshActions (.ok ovAAPL) priceFn1 (.ok [newsA])).take k)).loading = true)
    ∧ runRefresh initialDashState (.ok ovAAPL) priceFn1 (.ok [newsA]) =
        { dashboardData := some ovAAPL,
          prices := buildPricesMap ovAAPL.analyses priceFn1,
          news := [newsA], loading := false, error := none } :=
  refresh_publishes_atomically initialDashState ovAAPL priceFn1 (.ok [newsA]) (by decide)

/-! ## Formatting claim theorems -/

/-- C9: the pure helpers return exactly the specified outputs on the
specified inputs, and `isValidTicker` accepts a string precisely when it
consists of 1 to 5 uppercase ASCII letters. -/
theorem formatting_helpers_spec :
    formatPercent (some (-3.456)) = "-3.46%"
    ∧ formatPercent (some 0) = "+0.00%"
    ∧ formatPrice none = "N/A"
    ∧ formatNumber (some 2500000) = "2.50M"
    ∧ (∀ s : String, isValidTicker s = true ↔
        (1 ≤ s.data.length ∧ s.data.length ≤ 5 ∧ ∀ c ∈ s.data, 'A' ≤ c ∧ c ≤ 'Z'))
    ∧ isValidTicker "AAPL" = true
    ∧ isValidTicker "aapl" = false
    ∧ isValidTicker "TOOLONG1" = false := by
  have hf1 : (⌊|(-3.456 : ℚ)| * 100 + 1 / 2⌋ : ℤ) = 346 := by
    norm_num [Int.floor_eq_iff, abs_of_nonneg]
  have hf2 : (⌊|(0 : ℚ)| * 100 + 1 / 2⌋ : ℤ) = 0 := by
    norm_num [Int.floor_eq_iff, abs_of_nonneg]
  have hf3 : (⌊|(2500000 : ℚ) / 1000000| * 100 + 1 / 2⌋ : ℤ) = 250 := by
    norm_num [Int.floor_eq_iff, abs_of_nonneg]
  refine ⟨?_, ?_, rfl, ?_, ?_, by decide, by decide, by decide⟩
  · simp only [formatPercent, jsToFixed2, hf1]
    norm_num
    rfl
  · simp only [formatPercent, jsToFixed2, hf2]
    norm_num
    rfl
  · simp only [formatNumber, jsToFixed2, hf3]
    norm_num
    rfl
  intro s
  constructor
  · intro h
    by_cases hs : s = ""
    · subst hs
      simp [isValidTicker] at h
    · simp only [isValidTicker, if_neg hs, Bool.and_eq_true, decide_eq_true_eq,
        List.all_eq_true] at h
      obtain ⟨⟨h1, h2⟩, h3⟩ := h
      refine ⟨h1, h2, fun c hc => ?_⟩
      have := h3 c hc
      simpa using this
  · rintro ⟨h1, h2, h3⟩
    have hs : s ≠ "" := by
      intro hs
      subst hs
      exact absurd h1 (by decide)
    simp only [isValidTicker, if_neg hs, Bool.and_eq_true, decide_eq_true_eq,
      List.all_eq_true]
    exact ⟨⟨h1, h2⟩, fun c hc => by simp [h3 c hc]⟩
